import Mathlib

/-!
Verification of the observability/tracing core of the agent-observability
platform (source: src/agent/backend/instrumentation/instrumentor.py and
src/agent/backend/instrument.py), as a shallow embedding in Lean 4.

Conventions used throughout:
* Python floats that hold wall-clock times and monetary amounts are modelled
  as rationals; machine time is an explicit parameter threaded to any
  function that reads the clock.
* Python dictionaries are modelled as association lists with an explicit
  first-match lookup; dictionary insertion overwrites an existing key in
  place and otherwise appends.
* Exceptions that the source catches and logs are modelled by total
  functions; exceptions that the source propagates are modelled by explicit
  error values in the result type.
-/

/-- First-match lookup in an association list (Python `dict.get`). -/
def assocLookup {α β : Type} [DecidableEq α] (k : α) : List (α × β) → Option β
  | [] => none
  | (k', v) :: rest => if k' = k then some v else assocLookup k rest

/-! ## Authenticated exporter (`AuthenticatedOTLPExporter.export`)

The exporter wraps the OTLP HTTP transport.  Its auth-related state is the
timestamp of the last authentication failure (`_last_auth_failure`, `0`
meaning "none recorded") and the fixed cool-down `_auth_failure_threshold`
of 60 seconds set in `__init__`.  A single call to `export` is modelled as
a function of the current state, the current time, and the outcome the
underlying transport would produce if it were reached. -/

inductive SpanExportResult where
  | SUCCESS
  | FAILURE
  deriving DecidableEq, Repr

/-- The exporter's mutable auth state: `_last_auth_failure` (0 = none). -/
structure AuthState where
  lastAuthFailure : ℚ
  deriving DecidableEq, Repr

/-- `self._auth_failure_threshold = 60` ("don't retry auth failures more
than once per minute"). -/
def authFailureThreshold : ℚ := 60

/-- Outcome of the underlying transport call (`super().export(spans)`),
including the exception classes the `except` clauses of `export`
distinguish.  `httpError none` is an `HTTPError` carrying no response
object. -/
inductive TransportOutcome where
  | ok
  | failResult
  | httpError (statusCode : Option ℕ)
  | jwtExpired
  | apiServerError
  | requestError
  | otherError
  deriving DecidableEq, Repr

/-- The cool-down test at the top of `export`:
`self._last_auth_failure > 0 and current_time - self._last_auth_failure <
self._auth_failure_threshold`. -/
def inCooldown (s : AuthState) (now : ℚ) : Prop :=
  0 < s.lastAuthFailure ∧ now - s.lastAuthFailure < authFailureThreshold

instance (s : AuthState) (now : ℚ) : Decidable (inCooldown s now) := by
  unfold inCooldown; infer_instance

/-- Result of one `export` call: the returned value, the auth state after
the call, and how many real transport calls were made (0 or 1). -/
structure ExportStep where
  result : SpanExportResult
  state : AuthState
  transportCalls : ℕ
  deriving DecidableEq, Repr

/-- `AuthenticatedOTLPExporter.export`.  Fast-fails inside the cool-down
window; otherwise performs one transport call and updates
`_last_auth_failure` according to the outcome: HTTP 401/403 and
`PhareApiJwtExpiredException` record `time.time()`, success resets to 0,
every other branch leaves the state alone and returns FAILURE. -/
def exportSpans (s : AuthState) (now : ℚ) (outcome : TransportOutcome) : ExportStep :=
  if inCooldown s now then
    ⟨.FAILURE, s, 0⟩
  else
    match outcome with
    | .ok => ⟨.SUCCESS, ⟨0⟩, 1⟩
    | .failResult => ⟨.FAILURE, s, 1⟩
    | .httpError statusCode =>
        if statusCode = some 401 ∨ statusCode = some 403 then ⟨.FAILURE, ⟨now⟩, 1⟩
        else ⟨.FAILURE, s, 1⟩
    | .jwtExpired => ⟨.FAILURE, ⟨now⟩, 1⟩
    | .apiServerError => ⟨.FAILURE, s, 1⟩
    | .requestError => ⟨.FAILURE, s, 1⟩
    | .otherError => ⟨.FAILURE, s, 1⟩

/-- `export` performs at most one transport call per invocation. -/
theorem exportSpans_transportCalls_le_one (s : AuthState) (now : ℚ)
    (outcome : TransportOutcome) : (exportSpans s now outcome).transportCalls ≤ 1 := by
  unfold exportSpans
  split
  · exact Nat.zero_le 1
  · cases outcome <;> simp only [] <;> first | exact Nat.le_refl 1 | split <;> exact Nat.le_refl 1

/-- Inside the cool-down window, `export` returns FAILURE, leaves the
state unchanged, and makes no transport call. -/
theorem exportSpans_cooldown (s : AuthState) (now : ℚ)
    (outcome : TransportOutcome) (h : inCooldown s now) :
    exportSpans s now outcome = ⟨.FAILURE, s, 0⟩ := by
  unfold exportSpans
  rw [if_pos h]

/-- C2: while a non-zero auth-failure timestamp is recorded and the current
time is within the 60-second cool-down of it, `export` returns FAILURE
without invoking the underlying transport and without changing the state;
consequently, when the second of two consecutive `export` calls falls
within one cool-down window of a failure recorded by (or before) the first
call, the two calls perform at most one real transport call between them. -/
theorem c2_cooldown_fast_fail :
    (∀ (s : AuthState) (now : ℚ) (outcome : TransportOutcome),
      0 < s.lastAuthFailure →
      now - s.lastAuthFailure < authFailureThreshold →
      exportSpans s now outcome = ⟨.FAILURE, s, 0⟩) ∧
    (∀ (s : AuthState) (t1 t2 : ℚ) (o1 o2 : TransportOutcome),
      0 < (exportSpans s t1 o1).state.lastAuthFailure →
      t2 - (exportSpans s t1 o1).state.lastAuthFailure < authFailureThreshold →
      (exportSpans s t1 o1).transportCalls
        + (exportSpans (exportSpans s t1 o1).state t2 o2).transportCalls ≤ 1) := by
  constructor
  · intro s now outcome h1 h2
    exact exportSpans_cooldown s now outcome ⟨h1, h2⟩
  · intro s t1 t2 o1 o2 h1 h2
    rw [exportSpans_cooldown _ t2 o2 ⟨h1, h2⟩]
    calc (exportSpans s t1 o1).transportCalls + 0
        = (exportSpans s t1 o1).transportCalls := Nat.add_zero _
      _ ≤ 1 := exportSpans_transportCalls_le_one s t1 o1

/-- Witness for C2: a failure recorded at time 100 by the first call (JWT
expiry) makes the second call at time 120 a fast-fail, so the two calls
together make at most one transport call; and a lone call at time 30 with
a failure recorded at time 10 makes none. -/
theorem c2_cooldown_fast_fail_witness :
    exportSpans ⟨10⟩ 30 .ok = ⟨.FAILURE, ⟨10⟩, 0⟩ ∧
    (exportSpans ⟨0⟩ 100 .jwtExpired).transportCalls
      + (exportSpans (exportSpans ⟨0⟩ 100 .jwtExpired).state 120 .ok).transportCalls ≤ 1 := by
  constructor
  · exact c2_cooldown_fast_fail.1 ⟨10⟩ 30 .ok (by norm_num) (by norm_num [authFailureThreshold])
  · refine c2_cooldown_fast_fail.2 ⟨0⟩ 100 120 .jwtExpired .ok ?_ ?_
    · show (0 : ℚ) < (exportSpans ⟨0⟩ 100 .jwtExpired).state.lastAuthFailure
      norm_num [exportSpans, inCooldown]
    · show (120 : ℚ) - (exportSpans ⟨0⟩ 100 .jwtExpired).state.lastAuthFailure
        < authFailureThreshold
      norm_num [exportSpans, inCooldown, authFailureThreshold]

/-- An outcome that `export` treats as an authentication failure: an HTTP
error whose response status is 401 or 403, or the explicit
`PhareApiJwtExpiredException` token-expired signal. -/
def isAuthFailureSignal : TransportOutcome → Bool
  | .httpError statusCode => statusCode = some 401 ∨ statusCode = some 403
  | .jwtExpired => true
  | _ => false

/-- C7: on an export attempt that reaches the transport, an HTTP 401/403
or an explicit token-expired signal sets the auth-failure timestamp to the
current time and returns FAILURE; a successful export clears the recorded
timestamp; any other transport-level outcome returns FAILURE leaving the
timestamp unchanged. -/
theorem c7_auth_state_transitions :
    (∀ (s : AuthState) (now : ℚ) (outcome : TransportOutcome),
      ¬ inCooldown s now → isAuthFailureSignal outcome = true →
      exportSpans s now outcome = ⟨.FAILURE, ⟨now⟩, 1⟩) ∧
    (∀ (s : AuthState) (now : ℚ),
      ¬ inCooldown s now →
      exportSpans s now .ok = ⟨.SUCCESS, ⟨0⟩, 1⟩) ∧
    (∀ (s : AuthState) (now : ℚ) (outcome : TransportOutcome),
      ¬ inCooldown s now → outcome ≠ .ok → isAuthFailureSignal outcome = false →
      (exportSpans s now outcome).result = .FAILURE ∧
        (exportSpans s now outcome).state = s) := by
  refine ⟨?_, ?_, ?_⟩
  · intro s now outcome hcd hsig
    unfold exportSpans
    rw [if_neg hcd]
    cases outcome with
    | httpError statusCode =>
        simp only [isAuthFailureSignal, decide_eq_true_eq] at hsig
        simp only [if_pos hsig]
    | jwtExpired => rfl
    | ok => simp [isAuthFailureSignal] at hsig
    | failResult => simp [isAuthFailureSignal] at hsig
    | apiServerError => simp [isAuthFailureSignal] at hsig
    | requestError => simp [isAuthFailureSignal] at hsig
    | otherError => simp [isAuthFailureSignal] at hsig
  · intro s now hcd
    unfold exportSpans
    rw [if_neg hcd]
  · intro s now outcome hcd hok hsig
    unfold exportSpans
    rw [if_neg hcd]
    cases outcome with
    | ok => exact absurd rfl hok
    | failResult => exact ⟨rfl, rfl⟩
    | httpError statusCode =>
        simp only [isAuthFailureSignal, decide_eq_false_iff_not] at hsig
        dsimp only
        rw [if_neg hsig]
        exact ⟨rfl, rfl⟩
    | jwtExpired => simp [isAuthFailureSignal] at hsig
    | apiServerError => exact ⟨rfl, rfl⟩
    | requestError => exact ⟨rfl, rfl⟩
    | otherError => exact ⟨rfl, rfl⟩

/-- Witness for C7: with no cool-down active at time 5, an HTTP 401 records
the failure time 5, a success resets the timestamp recorded long ago, and a
plain network error leaves the old timestamp alone. -/
theorem c7_auth_state_transitions_witness :
    exportSpans ⟨0⟩ 5 (.httpError (some 401)) = ⟨.FAILURE, ⟨5⟩, 1⟩ ∧
    exportSpans ⟨3⟩ 200 .ok = ⟨.SUCCESS, ⟨0⟩, 1⟩ ∧
    (exportSpans ⟨3⟩ 200 .requestError).result = .FAILURE ∧
      (exportSpans ⟨3⟩ 200 .requestError).state = ⟨3⟩ := by
  refine ⟨?_, ?_, ?_⟩
  · exact c7_auth_state_transitions.1 ⟨0⟩ 5 (.httpError (some 401))
      (by norm_num [inCooldown]) (by decide)
  · exact c7_auth_state_transitions.2.1 ⟨3⟩ 200
      (by norm_num [inCooldown, authFailureThreshold])
  · exact c7_auth_state_transitions.2.2 ⟨3⟩ 200 .requestError
      (by norm_num [inCooldown, authFailureThreshold]) (by decide) (by decide)

/-! ## LLM-call cost computation (`src/agent/backend/instrument.py`)

`_call_llm_async_wrapper` processes each streamed `LlmResponse` chunk that
carries usage metadata: it reads the prompt/completion token counts, looks
the model up in the static `MODEL_PRICING` table (falling back to
`DEFAULT_PRICING`), and increments the cost counter by
`(prompt_tokens / 1_000_000) * pricing["prompt"] +
(completion_tokens / 1_000_000) * pricing["completion"]`, guarded by
`total_cost > 0`.  Monetary amounts are modelled as rationals. -/

/-- A per-model price entry: dollars per 1,000,000 prompt tokens and per
1,000,000 completion tokens. -/
structure Pricing where
  prompt : ℚ
  completion : ℚ
  deriving DecidableEq, Repr

/-- The static `MODEL_PRICING` table. -/
def MODEL_PRICING : List (String × Pricing) :=
  [("gemini-2.5-flash", ⟨0.30, 2.5⟩),
   ("gemini-2.5-pro", ⟨1.25, 10.00⟩),
   ("gemini-2.0-flash", ⟨0.10, 0.40⟩)]

/-- `DEFAULT_PRICING = {"prompt": 0.10, "completion": 0.40}`. -/
def DEFAULT_PRICING : Pricing := ⟨0.10, 0.40⟩

/-- `MODEL_PRICING.get(model_name, DEFAULT_PRICING)`. -/
def pricingFor (modelName : String) : Pricing :=
  (assocLookup modelName MODEL_PRICING).getD DEFAULT_PRICING

/-- The increment applied to the `LLM_COST` counter for one streamed chunk
carrying the given usage counts (`_call_llm_async_wrapper`): the computed
total cost when it is positive, and nothing (modelled as 0) otherwise. -/
def llmChunkCostIncrement (modelName : String)
    (promptTokens completionTokens : ℕ) : ℚ :=
  let pricing := pricingFor modelName
  let promptCost := ((promptTokens : ℚ) / 1000000) * pricing.prompt
  let completionCost := ((completionTokens : ℚ) / 1000000) * pricing.completion
  let totalCost := promptCost + completionCost
  if 0 < totalCost then totalCost else 0

/-- The cost formula exactly as the spec states it:
`prompt_tokens * price.prompt / 1e6 + completion_tokens * price.completion / 1e6`. -/
def specIncrementalCost (modelName : String)
    (promptTokens completionTokens : ℕ) : ℚ :=
  (promptTokens : ℚ) * (pricingFor modelName).prompt / 1000000
    + (completionTokens : ℚ) * (pricingFor modelName).completion / 1000000

/-- Every price entry reachable from the table (or the default) is one of
the three concrete entries or the default. -/
theorem pricingFor_cases (modelName : String) :
    pricingFor modelName = ⟨0.30, 2.5⟩ ∨ pricingFor modelName = ⟨1.25, 10.00⟩ ∨
    pricingFor modelName = ⟨0.10, 0.40⟩ := by
  unfold pricingFor MODEL_PRICING DEFAULT_PRICING
  simp only [assocLookup]
  split
  · left; rfl
  · split
    · right; left; rfl
    · split
      · right; right; rfl
      · right; right; rfl

theorem pricingFor_nonneg (modelName : String) :
    0 ≤ (pricingFor modelName).prompt ∧ 0 ≤ (pricingFor modelName).completion := by
  rcases pricingFor_cases modelName with h | h | h <;> rw [h] <;> constructor <;> norm_num

/-- C8: the recorded incremental cost of a streamed chunk equals
`prompt_tokens * price.prompt / 1e6 + completion_tokens * price.completion / 1e6`,
where the price entry comes from the static table and an unknown model
falls back to the default entry; with the table price
`{prompt: 0.30, completion: 2.50}` and 1000 prompt / 500 completion
tokens, the cost is exactly 0.00155. -/
theorem c8_incremental_llm_cost :
    (∀ (modelName : String) (promptTokens completionTokens : ℕ),
      llmChunkCostIncrement modelName promptTokens completionTokens
        = specIncrementalCost modelName promptTokens completionTokens) ∧
    (∀ modelName : String, assocLookup modelName MODEL_PRICING = none →
      pricingFor modelName = DEFAULT_PRICING) ∧
    pricingFor "gemini-2.5-flash" = ⟨0.30, 2.5⟩ ∧
    llmChunkCostIncrement "gemini-2.5-flash" 1000 500 = 0.00155 := by
  refine ⟨?_, ?_, ?_, ?_⟩
  · intro modelName promptTokens completionTokens
    obtain ⟨hp, hc⟩ := pricingFor_nonneg modelName
    unfold llmChunkCostIncrement specIncrementalCost
    dsimp only
    have hsum : (promptTokens : ℚ) * (pricingFor modelName).prompt / 1000000
        + (completionTokens : ℚ) * (pricingFor modelName).completion / 1000000
        = ((promptTokens : ℚ) / 1000000) * (pricingFor modelName).prompt
          + ((completionTokens : ℚ) / 1000000) * (pricingFor modelName).completion := by
      ring
    rw [hsum]
    split
    · rfl
    · rename_i hnotpos
      have h1 : 0 ≤ ((promptTokens : ℚ) / 1000000) * (pricingFor modelName).prompt := by
        apply mul_nonneg _ hp
        positivity
      have h2 : 0 ≤ ((completionTokens : ℚ) / 1000000) * (pricingFor modelName).completion := by
        apply mul_nonneg _ hc
        positivity
      push_neg at hnotpos
      linarith
  · intro modelName h
    unfold pricingFor
    rw [h]
    rfl
  · rfl
  · norm_num [llmChunkCostIncrement, pricingFor, MODEL_PRICING, assocLookup]

/-- Witness for C8: the name "mistral-large" is not in the price table, so
it gets the default entry; the first and last conjuncts of the theorem are
closed computations, re-checked here at the same inputs. -/
theorem c8_incremental_llm_cost_witness :
    pricingFor "mistral-large" = DEFAULT_PRICING ∧
    llmChunkCostIncrement "gemini-2.5-flash" 1000 500
      = specIncrementalCost "gemini-2.5-flash" 1000 500 := by
  constructor
  · exact c8_incremental_llm_cost.2.1 "mistral-large" (by decide)
  · exact c8_incremental_llm_cost.1 "gemini-2.5-flash" 1000 500

/-! ## Execution-boundary wrapper (`run_async_wrapper` in
`src/agent/backend/instrument.py`)

The wrapper is an async generator: it forwards every item of the wrapped
call (async-generator items, or the awaited value of a coroutine), and in
its `finally` block increments `AGENT_RUNS{agent_name, status}` once and
observes `AGENT_DURATION{agent_name}` once, with `status = "error"` exactly
when the wrapped call raised; the exception object itself is re-raised
unchanged (`raise` with no argument). -/

/-- A Python exception value: its class name and message. -/
structure PyException where
  excType : String
  message : String
  deriving DecidableEq, Repr

/-- What the wrapped original method produces when driven to completion:
an async generator that yields `items` and then either finishes or raises,
or a coroutine that returns one value or raises. -/
inductive UnderlyingResult (α : Type) where
  | asyncGen (items : List α) (raised : Option PyException)
  | coroutine (outcome : Except PyException α)

/-- One Prometheus observation made by the wrapper. -/
inductive MetricEvent where
  | agentRunInc (agentName status : String)
  | agentDurationObserve (agentName : String)
  deriving DecidableEq, Repr

/-- The observable behaviour of one full consumption of the wrapper:
the items it yielded, the exception it let escape (unchanged), and the
metric observations it made. -/
structure WrapperRun (α : Type) where
  yielded : List α
  raised : Option PyException
  events : List MetricEvent

/-- `run_async_wrapper(original_method)` applied to one call, with the
underlying call's behaviour as a parameter.  The `finally` block always
runs exactly once when the generator is driven to completion. -/
def run_async_wrapper {α : Type} (agentName : String)
    (underlying : UnderlyingResult α) : WrapperRun α :=
  match underlying with
  | .asyncGen items raised =>
      let status := if raised.isSome then "error" else "success"
      ⟨items, raised,
        [.agentRunInc agentName status, .agentDurationObserve agentName]⟩
  | .coroutine (.ok v) =>
      ⟨[v], none,
        [.agentRunInc agentName "success", .agentDurationObserve agentName]⟩
  | .coroutine (.error e) =>
      ⟨[], some e,
        [.agentRunInc agentName "error", .agentDurationObserve agentName]⟩

/-- How many times `AGENT_RUNS` was incremented with the given status. -/
def agentRunIncCount (events : List MetricEvent) (status : String) : ℕ :=
  events.countP fun ev =>
    match ev with
    | .agentRunInc _ s => s == status
    | _ => false

/-- C3: a wrapped execution boundary whose underlying call raises records
exactly one status="error" observation and re-raises the original
exception object unchanged (in particular a `ValueError("boom")` stays a
`ValueError("boom")`), forwarding all items yielded before the failure;
a non-raising call records exactly one status="success" observation and
no error observation. -/
theorem c3_execution_boundary_error_contract :
    (∀ (α : Type) (agentName : String) (items : List α) (e : PyException),
      (run_async_wrapper agentName (.asyncGen items (some e))).yielded = items ∧
      (run_async_wrapper agentName (.asyncGen items (some e))).raised = some e ∧
      agentRunIncCount (run_async_wrapper agentName (.asyncGen items (some e))).events "error" = 1 ∧
      agentRunIncCount (run_async_wrapper agentName (.asyncGen items (some e))).events "success" = 0) ∧
    (∀ (α : Type) (agentName : String) (e : PyException),
      (run_async_wrapper (α := α) agentName (.coroutine (.error e))).raised = some e ∧
      agentRunIncCount (run_async_wrapper (α := α) agentName (.coroutine (.error e))).events "error" = 1 ∧
      agentRunIncCount (run_async_wrapper (α := α) agentName (.coroutine (.error e))).events "success" = 0) ∧
    (∀ (α : Type) (agentName : String) (items : List α),
      (run_async_wrapper agentName (.asyncGen items none)).yielded = items ∧
      (run_async_wrapper agentName (.asyncGen items none)).raised = none ∧
      agentRunIncCount (run_async_wrapper agentName (.asyncGen items none)).events "success" = 1 ∧
      agentRunIncCount (run_async_wrapper agentName (.asyncGen items none)).events "error" = 0) ∧
    (∀ (α : Type) (agentName : String) (v : α),
      (run_async_wrapper agentName (.coroutine (.ok v))).yielded = [v] ∧
      (run_async_wrapper agentName (.coroutine (.ok v))).raised = none ∧
      agentRunIncCount (run_async_wrapper agentName (.coroutine (.ok v))).events "success" = 1 ∧
      agentRunIncCount (run_async_wrapper agentName (.coroutine (.ok v))).events "error" = 0) := by
  refine ⟨?_, ?_, ?_, ?_⟩
  · intro α agentName items e
    exact ⟨rfl, rfl, rfl, rfl⟩
  · intro α agentName e
    exact ⟨rfl, rfl, rfl⟩
  · intro α agentName items
    exact ⟨rfl, rfl, rfl, rfl⟩
  · intro α agentName v
    exact ⟨rfl, rfl, rfl, rfl⟩

/-! ## Python string primitives

The dynamic-instrumentation manager manipulates package and class names
with Python string methods (`lower`, `replace`, `split`, `startswith`,
`int()`).  They are embedded here as structurally-recursive functions over
the character list of a `String`, mirroring Python semantics on the ASCII
inputs that occur in the source. -/

/-- `str.lower()`. -/
def pyToLower (s : String) : String := ⟨s.data.map Char.toLower⟩

/-- Bool test that `pat` is a leading subsequence of `l`. -/
def isPrefixCharList : List Char → List Char → Bool
  | [], _ => true
  | _ :: _, [] => false
  | p :: ps, c :: cs => p = c && isPrefixCharList ps cs

/-- `s.startswith(p)`. -/
def pyStartsWith (s p : String) : Bool := isPrefixCharList p.data s.data

/-- Left-to-right, non-overlapping replacement of each occurrence of `pat`
by `repl`; the fuel argument (instantiated with the input length) makes the
recursion structural. -/
def replaceFuel (pat repl : List Char) : ℕ → List Char → List Char
  | 0, l => l
  | _ + 1, [] => []
  | fuel + 1, c :: rest =>
      if 0 < pat.length ∧ isPrefixCharList pat (c :: rest) = true then
        repl ++ replaceFuel pat repl fuel (rest.drop (pat.length - 1))
      else
        c :: replaceFuel pat repl fuel rest

/-- `s.replace(pat, repl)` (for the non-empty patterns used in the source). -/
def pyReplace (s pat repl : String) : String :=
  ⟨replaceFuel pat.data repl.data s.data.length s.data⟩

/-- Accumulator-style split of a character list at every separator. -/
def splitCharAux (sep : Char) : List Char → List Char → List (List Char)
  | [], acc => [acc.reverse]
  | c :: rest, acc =>
      if c = sep then acc.reverse :: splitCharAux sep rest []
      else splitCharAux sep rest (c :: acc)

/-- `s.split(sep)` for a one-character separator (always non-empty). -/
def pySplit (s : String) (sep : Char) : List String :=
  (splitCharAux sep s.data []).map fun cs => ⟨cs⟩

/-- `int(s)` restricted to decimal digit strings, as `str.toNat?`. -/
def pyToNat? (s : String) : Option ℕ :=
  if s.data ≠ [] ∧ s.data.all Char.isDigit then
    some (s.data.foldl (fun acc c => acc * 10 + (c.toNat - 48)) 0)
  else none

/-! ## Semantic-version gate (`InstrumentorLoader.should_activate`)

`packaging.version.Version` comparison is modelled for the purely numeric
release versions that appear in the policy tables and claims: a version is
the list of its dot-separated numeric components, compared componentwise
with zero-padding (so "2.0" and "2.0.0" are equal, as in `packaging`). -/

/-- Lexicographic ≤ on equal-length numeric component lists. -/
def lexLeNat : List ℕ → List ℕ → Bool
  | [], _ => true
  | _ :: _, [] => true
  | a :: as1, b :: bs1 => decide (a < b) || (decide (a = b) && lexLeNat as1 bs1)

/-- `Version(a) <= Version(b)` for numeric releases, via zero-padding to a
common length. -/
def versionLe (a b : List ℕ) : Bool :=
  let n := max a.length b.length
  lexLeNat (a ++ List.replicate (n - a.length) 0) (b ++ List.replicate (n - b.length) 0)

/-- `parse(s)` / `Version(s)` restricted to numeric releases: the list of
the dot-separated components (a non-numeric component counts as 0). -/
def parseVersion (s : String) : List ℕ :=
  (pySplit s '.').map fun component => (pyToNat? component).getD 0

/-- The `InstrumentorLoader` dataclass. -/
structure InstrumentorLoader where
  module_name : String
  class_name : String
  min_version : String
  package_name : Option String := none
  deriving DecidableEq, Repr

/-- The process environment `should_activate` consults:
`importlib.metadata.version` (None models the lookup raising) and the host
Python's `sys.version_info` rendered as a version string. -/
structure InstrumentEnv where
  installedVersions : String → Option String
  pythonVersion : String

/-- `get_library_version(package_name, default_version="unknown")`. -/
def get_library_version (env : InstrumentEnv) (packageName : String)
    (defaultVersion : String := "unknown") : String :=
  (env.installedVersions packageName).getD defaultVersion

/-- The package name `should_activate` resolves: the explicit
`package_name` if provided, otherwise the last dotted component of
`module_name`. -/
def InstrumentorLoader.resolvedPackageName (loader : InstrumentorLoader) : String :=
  loader.package_name.getD ((pySplit loader.module_name '.').getLastD loader.module_name)

/-- `InstrumentorLoader.should_activate`: the special `"python"`
pseudo-package is gated against the host runtime's own version; otherwise
the installed version of the resolved package must be known and ≥
`min_version`. -/
def InstrumentorLoader.should_activate (loader : InstrumentorLoader)
    (env : InstrumentEnv) : Bool :=
  if loader.package_name = some "python" then
    versionLe (parseVersion loader.min_version) (parseVersion env.pythonVersion)
  else
    let moduleVersion := get_library_version env loader.resolvedPackageName
    (moduleVersion != "unknown")
      && versionLe (parseVersion loader.min_version) (parseVersion moduleVersion)

/-- The instrumentor instance as the manager sees it: its class, the
`_phare_instrumented_package_key` attribute stamped on it by
`_perform_instrumentation` (absent until then), and whether its
`instrument()` call raised. -/
structure Instrumentor where
  class_name : String
  packageKey : Option String := none
  instrumentRaised : Bool := false
  deriving DecidableEq, Repr

/-- Result of `instrument_one`: the returned instance (None when the gate
refused) and whether `instrumentor.instrument(...)` was invoked. -/
structure InstrumentOneResult where
  inst : Option Instrumentor
  instrumentCalled : Bool
  deriving DecidableEq, Repr

/-- `instrument_one(loader)`: refuses (returning None, without calling
`instrument`) when `should_activate` is false; otherwise instantiates the
class and calls `instrument()` — and returns the instance even when that
call raises, the error being only logged. -/
def instrument_one (loader : InstrumentorLoader) (env : InstrumentEnv)
    (instrumentRaises : Bool) : InstrumentOneResult :=
  if loader.should_activate env = false then ⟨none, false⟩
  else ⟨some ⟨loader.class_name, none, instrumentRaises⟩, true⟩

/-- C9: `should_activate` is true exactly when the resolved installed
version (or, for the `"python"` pseudo-package, the runtime's version) is
known and ≥ the declared minimum; a minimum of "2.0.0" refuses a resolved
"1.9.9" and accepts "2.0.0" and "2.1.0"; and `instrument_one` does not
invoke the instrument routine when the gate fails. -/
theorem c9_version_gate :
    (∀ (loader : InstrumentorLoader) (env : InstrumentEnv),
      loader.package_name ≠ some "python" →
      env.installedVersions loader.resolvedPackageName = none →
      loader.should_activate env = false) ∧
    (∀ (loader : InstrumentorLoader) (env : InstrumentEnv) (v : String),
      loader.package_name ≠ some "python" →
      env.installedVersions loader.resolvedPackageName = some v →
      v ≠ "unknown" →
      loader.should_activate env
        = versionLe (parseVersion loader.min_version) (parseVersion v)) ∧
    (∀ (loader : InstrumentorLoader) (env : InstrumentEnv),
      loader.package_name = some "python" →
      loader.should_activate env
        = versionLe (parseVersion loader.min_version) (parseVersion env.pythonVersion)) ∧
    (∀ (loader : InstrumentorLoader) (env : InstrumentEnv),
      loader.min_version = "2.0.0" →
      loader.package_name ≠ some "python" →
      env.installedVersions loader.resolvedPackageName = some "1.9.9" →
      loader.should_activate env = false) ∧
    (∀ (loader : InstrumentorLoader) (env : InstrumentEnv),
      loader.min_version = "2.0.0" →
      loader.package_name ≠ some "python" →
      env.installedVersions loader.resolvedPackageName = some "2.0.0" →
      loader.should_activate env = true) ∧
    (∀ (loader : InstrumentorLoader) (env : InstrumentEnv),
      loader.min_version = "2.0.0" →
      loader.package_name ≠ some "python" →
      env.installedVersions loader.resolvedPackageName = some "2.1.0" →
      loader.should_activate env = true) ∧
    (∀ (loader : InstrumentorLoader) (env : InstrumentEnv) (raises : Bool),
      loader.should_activate env = false →
      instrument_one loader env raises = ⟨none, false⟩) := by
  have hknown : ∀ (loader : InstrumentorLoader) (env : InstrumentEnv) (v : String),
      loader.package_name ≠ some "python" →
      env.installedVersions loader.resolvedPackageName = some v →
      v ≠ "unknown" →
      loader.should_activate env
        = versionLe (parseVersion loader.min_version) (parseVersion v) := by
    intro loader env v hpy hv hunk
    unfold InstrumentorLoader.should_activate
    rw [if_neg hpy]
    dsimp only
    unfold get_library_version
    rw [hv]
    simp only [Option.getD_some]
    have : (v != "unknown") = true := by
      simpa using hunk
    rw [this, Bool.true_and]
  refine ⟨?_, hknown, ?_, ?_, ?_, ?_, ?_⟩
  · intro loader env hpy hnone
    unfold InstrumentorLoader.should_activate
    rw [if_neg hpy]
    dsimp only
    unfold get_library_version
    rw [hnone]
    simp
  · intro loader env hpy
    unfold InstrumentorLoader.should_activate
    rw [if_pos hpy]
  · intro loader env hmin hpy hv
    rw [hknown loader env "1.9.9" hpy hv (by decide), hmin]
    decide
  · intro loader env hmin hpy hv
    rw [hknown loader env "2.0.0" hpy hv (by decide), hmin]
    decide
  · intro loader env hmin hpy hv
    rw [hknown loader env "2.1.0" hpy hv (by decide), hmin]
    decide
  · intro loader env raises h
    unfold instrument_one
    rw [h]
    rfl

/-- Witness for C9: a loader with minimum version 2.0.0 over environments
where the resolved package ("crewai", from the module path) is installed at
1.9.9, 2.0.0 and 2.1.0 respectively, or not installed at all; plus the
`"python"` pseudo-package against runtime 3.11.4. -/
theorem c9_version_gate_witness :
    InstrumentorLoader.should_activate
      ⟨"phare.instrumentation.agentic.crewai", "CrewaiInstrumentor", "2.0.0", none⟩
      ⟨fun n => if n = "crewai" then some "1.9.9" else none, "3.11.4"⟩ = false ∧
    InstrumentorLoader.should_activate
      ⟨"phare.instrumentation.agentic.crewai", "CrewaiInstrumentor", "2.0.0", none⟩
      ⟨fun n => if n = "crewai" then some "2.0.0" else none, "3.11.4"⟩ = true ∧
    InstrumentorLoader.should_activate
      ⟨"phare.instrumentation.agentic.crewai", "CrewaiInstrumentor", "2.0.0", none⟩
      ⟨fun n => if n = "crewai" then some "2.1.0" else none, "3.11.4"⟩ = true ∧
    InstrumentorLoader.should_activate
      ⟨"phare.instrumentation.agentic.crewai", "CrewaiInstrumentor", "2.0.0", none⟩
      ⟨fun _ => none, "3.11.4"⟩ = false ∧
    InstrumentorLoader.should_activate
      ⟨"phare.utilities.concurrent_futures", "ConcurrentFuturesInstrumentor",
        "3.7.0", some "python"⟩
      ⟨fun _ => none, "3.11.4"⟩ = true ∧
    instrument_one
      ⟨"phare.instrumentation.agentic.crewai", "CrewaiInstrumentor", "2.0.0", none⟩
      ⟨fun _ => none, "3.11.4"⟩ false = ⟨none, false⟩ := by
  refine ⟨?_, ?_, ?_, ?_, ?_, ?_⟩
  · exact c9_version_gate.2.2.2.1 _ _ rfl (by decide) (by decide)
  · exact c9_version_gate.2.2.2.2.1 _ _ rfl (by decide) (by decide)
  · exact c9_version_gate.2.2.2.2.2.1 _ _ rfl (by decide) (by decide)
  · exact c9_version_gate.1 _ _ (by decide) (by decide)
  · rw [c9_version_gate.2.2.1 _ _ rfl]
    decide
  · refine c9_version_gate.2.2.2.2.2.2 _ _ false ?_
    exact c9_version_gate.1 _ _ (by decide) (by decide)

/-! ## Dynamic instrumentation manager

Module-level state of `instrumentor.py`: `_active_instrumentors` and
`_has_agentic_library`.  The policy tables `PROVIDERS` and
`AGENTIC_LIBRARIES` are module constants in the source; the manager
functions below take them as parameters so the arbitration logic can be
stated for any table contents, and the repository's concrete values are
given as `PROVIDERS` / `AGENTIC_LIBRARIES` (in the checked-in source every
`PROVIDERS` entry is commented out and only `google.adk` is live). -/

/-- A policy table: target package key → loader configuration. -/
abbrev PolicyTable := List (String × InstrumentorLoader)

/-- The repository's `PROVIDERS` table (all entries commented out). -/
def PROVIDERS : PolicyTable := []

/-- The repository's `AGENTIC_LIBRARIES` table (only `google.adk` live). -/
def AGENTIC_LIBRARIES : PolicyTable :=
  [("google.adk",
    ⟨"agent.backend.instrumentation.instrumentor", "GoogleAdkInstrumentor", "0.1.0", none⟩)]

/-- The class-name fallback match inside `_is_package_instrumented`: the
class name, lowercased with "instrumentor" removed, against the
dots-to-underscores package name and against its last dotted component. -/
def classNameFallbackMatch (inst : Instrumentor) (packageName : String) : Bool :=
  let classPfx := pyReplace (pyToLower inst.class_name) "instrumentor" ""
  let normalizedTargetName := pyToLower (pyReplace packageName "." "_")
  let targetBaseName := pyToLower ((pySplit packageName '.').getLastD packageName)
  pyStartsWith normalizedTargetName classPfx || (targetBaseName == classPfx)

/-- `_is_package_instrumented`: some active instrumentor carries the
package key, or matches by the class-name fallback. -/
def _is_package_instrumented (activeInstrumentors : List Instrumentor)
    (packageName : String) : Bool :=
  activeInstrumentors.any fun inst =>
    (inst.packageKey == some packageName) || classNameFallbackMatch inst packageName

/-- The test inside the `_uninstrument_providers` loop:
`instrumented_key and instrumented_key in PROVIDERS` (a None or empty key
is falsy in Python, so such instrumentors are kept). -/
def isProviderInstrumentor (providers : PolicyTable) (inst : Instrumentor) : Bool :=
  match inst.packageKey with
  | some key => (key != "") && (assocLookup key providers).isSome
  | none => false

/-- `_uninstrument_providers`: calls `uninstrument()` once on every active
provider instrumentor and drops it from the active list, keeping all
others.  Returns (the new active list, the instrumentors whose
`uninstrument()` was called, in iteration order). -/
def _uninstrument_providers (providers : PolicyTable) :
    List Instrumentor → List Instrumentor × List Instrumentor
  | [] => ([], [])
  | inst :: rest =>
      let r := _uninstrument_providers providers rest
      if isProviderInstrumentor providers inst then (r.1, inst :: r.2)
      else (inst :: r.1, r.2)

theorem uninstrument_providers_eq (providers : PolicyTable)
    (l : List Instrumentor) :
    _uninstrument_providers providers l
      = (l.filter (fun i => !(isProviderInstrumentor providers i)),
         l.filter (isProviderInstrumentor providers)) := by
  induction l with
  | nil => rfl
  | cons head tail ih =>
      unfold _uninstrument_providers
      rw [ih]
      by_cases h : isProviderInstrumentor providers head = true
      · simp [List.filter, h]
      · rw [Bool.not_eq_true] at h
        simp [List.filter, h]

/-- The manager's module-level mutable state. -/
structure ManagerState where
  activeInstrumentors : List Instrumentor
  hasAgenticLibrary : Bool
  deriving DecidableEq, Repr

/-- `_should_instrument_package`.  Besides the decision it returns the
state after its `_uninstrument_providers` side effect and the list of
instrumentors that received an `uninstrument()` call.  The source's final
fall-through `return False` is unreachable given the branch structure. -/
def _should_instrument_package (providers agenticLibraries : PolicyTable)
    (s : ManagerState) (packageName : String) :
    Bool × ManagerState × List Instrumentor :=
  if _is_package_instrumented s.activeInstrumentors packageName then (false, s, [])
  else
    let isTargetAgentic := (assocLookup packageName agenticLibraries).isSome
    let isTargetProvider := (assocLookup packageName providers).isSome
    if !isTargetAgentic && !isTargetProvider then (false, s, [])
    else if s.hasAgenticLibrary then (false, s, [])
    else if isTargetAgentic then
      let r := _uninstrument_providers providers s.activeInstrumentors
      (true, ⟨r.1, s.hasAgenticLibrary⟩, r.2)
    else (true, s, [])

/-- Result of `_perform_instrumentation`: the new manager state, the
`uninstrument()` calls made, and whether a library `instrument()` routine
was invoked. -/
structure PerformResult where
  state : ManagerState
  uninstrumentCalls : List Instrumentor
  instrumentCalled : Bool
  deriving DecidableEq, Repr

/-- `_perform_instrumentation(package_name)`: consults
`_should_instrument_package`, looks the package up in `PROVIDERS` then
`AGENTIC_LIBRARIES`, runs `instrument_one`, stamps the returned instance
with `_phare_instrumented_package_key`, appends it to
`_active_instrumentors` unless one with the same key is already there, and
sets `_has_agentic_library` when the package is an agentic target. -/
def _perform_instrumentation (providers agenticLibraries : PolicyTable)
    (env : InstrumentEnv) (instrumentRaises : Bool)
    (s : ManagerState) (packageName : String) : PerformResult :=
  match _should_instrument_package providers agenticLibraries s packageName with
  | (false, s1, calls) => ⟨s1, calls, false⟩
  | (true, s1, calls) =>
      match assocLookup packageName providers <|> assocLookup packageName agenticLibraries with
      | none => ⟨s1, calls, false⟩
      | some loaderCfg =>
          match instrument_one loaderCfg env instrumentRaises with
          | ⟨none, called⟩ => ⟨s1, calls, called⟩
          | ⟨some inst0, called⟩ =>
              let inst : Instrumentor := { inst0 with packageKey := some packageName }
              let newActive :=
                if s1.activeInstrumentors.any (fun e => e.packageKey == some packageName) then
                  s1.activeInstrumentors
                else s1.activeInstrumentors ++ [inst]
              let newHasAgentic :=
                if (assocLookup packageName agenticLibraries).isSome && !s1.hasAgenticLibrary
                then true
                else s1.hasAgenticLibrary
              ⟨⟨newActive, newHasAgentic⟩, calls, called⟩

theorem should_instrument_of_agentic_active (providers agenticLibraries : PolicyTable)
    (s : ManagerState) (packageName : String) (h : s.hasAgenticLibrary = true) :
    _should_instrument_package providers agenticLibraries s packageName = (false, s, []) := by
  unfold _should_instrument_package
  rw [h]
  split
  · rfl
  · simp

theorem perform_of_agentic_active (providers agenticLibraries : PolicyTable)
    (env : InstrumentEnv) (raises : Bool) (s : ManagerState) (packageName : String)
    (h : s.hasAgenticLibrary = true) :
    _perform_instrumentation providers agenticLibraries env raises s packageName
      = ⟨s, [], false⟩ := by
  unfold _perform_instrumentation
  rw [should_instrument_of_agentic_active providers agenticLibraries s packageName h]

theorem not_keyed_of_not_instrumented {l : List Instrumentor} {packageName : String}
    (h : _is_package_instrumented l packageName = false) :
    ∀ i ∈ l, (i.packageKey == some packageName) = false := by
  intro i hi
  unfold _is_package_instrumented at h
  rw [List.any_eq_false] at h
  have hb := h i hi
  rw [Bool.not_eq_true, Bool.or_eq_false_iff] at hb
  exact hb.1

theorem any_filter_false {α : Type} {l : List α} {p q : α → Bool}
    (h : ∀ i ∈ l, q i = false) : (l.filter p).any q = false := by
  rw [List.any_eq_false]
  intro x hx
  rw [Bool.not_eq_true]
  exact h x (List.mem_of_mem_filter hx)

theorem should_instrument_agentic_case (providers agenticLibraries : PolicyTable)
    (s : ManagerState) (packageName : String)
    (hA : s.hasAgenticLibrary = false)
    (hI : _is_package_instrumented s.activeInstrumentors packageName = false)
    (hAg : (assocLookup packageName agenticLibraries).isSome = true) :
    _should_instrument_package providers agenticLibraries s packageName
      = (true,
         ⟨s.activeInstrumentors.filter (fun i => !(isProviderInstrumentor providers i)),
          false⟩,
         s.activeInstrumentors.filter (isProviderInstrumentor providers)) := by
  unfold _should_instrument_package
  rw [hI, hA, hAg, uninstrument_providers_eq]
  simp

theorem should_instrument_provider_case (providers agenticLibraries : PolicyTable)
    (s : ManagerState) (packageName : String)
    (hA : s.hasAgenticLibrary = false)
    (hI : _is_package_instrumented s.activeInstrumentors packageName = false)
    (hAgNone : assocLookup packageName agenticLibraries = none)
    (hP : (assocLookup packageName providers).isSome = true) :
    _should_instrument_package providers agenticLibraries s packageName
      = (true, s, []) := by
  unfold _should_instrument_package
  rw [hI, hA, hAgNone, hP]
  simp

theorem any_keyed_false {l : List Instrumentor} {packageName : String}
    (h : _is_package_instrumented l packageName = false) :
    l.any (fun e => e.packageKey == some packageName) = false := by
  rw [List.any_eq_false]
  intro x hx
  rw [Bool.not_eq_true]
  exact not_keyed_of_not_instrumented h x hx

theorem is_package_instrumented_of_mem {l : List Instrumentor} {packageName : String}
    {i : Instrumentor} (hm : i ∈ l) (hk : i.packageKey = some packageName) :
    _is_package_instrumented l packageName = true := by
  unfold _is_package_instrumented
  rw [List.any_eq_true]
  refine ⟨i, hm, ?_⟩
  rw [hk]
  simp

/-- The first agentic-library target, instrumented while providers may be
active: every active provider is uninstrumented and dropped, the new
instance is appended keyed by the package, and the agentic flag is set. -/
theorem perform_agentic_eq (providers agenticLibraries : PolicyTable)
    (env : InstrumentEnv) (raises : Bool) (s : ManagerState) (packageName : String)
    (cfg : InstrumentorLoader)
    (hA : s.hasAgenticLibrary = false)
    (hI : _is_package_instrumented s.activeInstrumentors packageName = false)
    (hP : assocLookup packageName providers = none)
    (hAg : assocLookup packageName agenticLibraries = some cfg)
    (hAct : cfg.should_activate env = true) :
    _perform_instrumentation providers agenticLibraries env raises s packageName
      = ⟨⟨s.activeInstrumentors.filter (fun i => !(isProviderInstrumentor providers i))
            ++ [⟨cfg.class_name, some packageName, raises⟩], true⟩,
         s.activeInstrumentors.filter (isProviderInstrumentor providers), true⟩ := by
  have hAgSome : (assocLookup packageName agenticLibraries).isSome = true := by
    rw [hAg]; rfl
  have hone : instrument_one cfg env raises
      = ⟨some ⟨cfg.class_name, none, raises⟩, true⟩ := by
    unfold instrument_one
    rw [hAct]
    simp
  have hany : (s.activeInstrumentors.filter
        fun i => !(isProviderInstrumentor providers i)).any
      (fun e => e.packageKey == some packageName) = false :=
    any_filter_false (not_keyed_of_not_instrumented hI)
  unfold _perform_instrumentation
  rw [should_instrument_agentic_case providers agenticLibraries s packageName hA hI hAgSome]
  dsimp only
  rw [hP, hAg]
  simp only [Option.none_orElse]
  rw [hone]
  dsimp only
  rw [hany]
  simp [hAgSome]

/-- A provider target, instrumented with no agentic library active: the new
instance is appended keyed by the package, and the agentic flag stays
unset. -/
theorem perform_provider_eq (providers agenticLibraries : PolicyTable)
    (env : InstrumentEnv) (raises : Bool) (s : ManagerState) (packageName : String)
    (cfg : InstrumentorLoader)
    (hA : s.hasAgenticLibrary = false)
    (hI : _is_package_instrumented s.activeInstrumentors packageName = false)
    (hP : assocLookup packageName providers = some cfg)
    (hAgNone : assocLookup packageName agenticLibraries = none)
    (hAct : cfg.should_activate env = true) :
    _perform_instrumentation providers agenticLibraries env raises s packageName
      = ⟨⟨s.activeInstrumentors ++ [⟨cfg.class_name, some packageName, raises⟩], false⟩,
         [], true⟩ := by
  have hPSome : (assocLookup packageName providers).isSome = true := by
    rw [hP]; rfl
  have hone : instrument_one cfg env raises
      = ⟨some ⟨cfg.class_name, none, raises⟩, true⟩ := by
    unfold instrument_one
    rw [hAct]
    simp
  unfold _perform_instrumentation
  rw [should_instrument_provider_case providers agenticLibraries s packageName hA hI
    hAgNone hPSome]
  dsimp only
  rw [hP]
  simp only [Option.some_orElse]
  rw [hone]
  dsimp only
  rw [any_keyed_false hI]
  simp [hAgNone, hA]

/-- C4: once the agentic-library flag is set, `_should_instrument_package`
refuses every package and `_perform_instrumentation` changes nothing and
never reaches an `instrument()` call; and instrumenting the first
agentic-library target while providers are active gives each active
provider exactly one `uninstrument()` call, removes them all from the
active set before the agentic instance is appended, and sets the flag. -/
theorem c4_agentic_exclusivity :
    (∀ (providers agenticLibraries : PolicyTable) (env : InstrumentEnv)
       (raises : Bool) (s : ManagerState) (packageName : String),
      s.hasAgenticLibrary = true →
      _should_instrument_package providers agenticLibraries s packageName
          = (false, s, []) ∧
      _perform_instrumentation providers agenticLibraries env raises s packageName
          = ⟨s, [], false⟩) ∧
    (∀ (providers agenticLibraries : PolicyTable) (env : InstrumentEnv)
       (raises : Bool) (s : ManagerState) (packageName : String)
       (cfg : InstrumentorLoader),
      s.hasAgenticLibrary = false →
      _is_package_instrumented s.activeInstrumentors packageName = false →
      assocLookup packageName providers = none →
      assocLookup packageName agenticLibraries = some cfg →
      cfg.should_activate env = true →
      (_perform_instrumentation providers agenticLibraries env raises s
            packageName).uninstrumentCalls
          = s.activeInstrumentors.filter (isProviderInstrumentor providers) ∧
      (_perform_instrumentation providers agenticLibraries env raises s
            packageName).state.activeInstrumentors
          = s.activeInstrumentors.filter
                (fun i => !(isProviderInstrumentor providers i))
              ++ [⟨cfg.class_name, some packageName, raises⟩] ∧
      (_perform_instrumentation providers agenticLibraries env raises s
            packageName).state.hasAgenticLibrary = true) := by
  constructor
  · intro providers agenticLibraries env raises s packageName h
    exact ⟨should_instrument_of_agentic_active providers agenticLibraries s packageName h,
      perform_of_agentic_active providers agenticLibraries env raises s packageName h⟩
  · intro providers agenticLibraries env raises s packageName cfg hA hI hP hAg hAct
    rw [perform_agentic_eq providers agenticLibraries env raises s packageName cfg
      hA hI hP hAg hAct]
    exact ⟨rfl, rfl, rfl⟩

/-- A sample provider policy table (the shape of the commented-out `openai`
entry of `PROVIDERS`), used to exercise the provider-arbitration paths. -/
def sampleProviderTable : PolicyTable :=
  [("openai", ⟨"phare.instrumentation.providers.openai", "OpenaiInstrumentor", "1.0.0", none⟩)]

/-- A sample environment: google.adk's loader resolves the package name
"instrumentor" from its module path, installed at 0.1.0; openai installed
at 1.5.0. -/
def sampleEnv : InstrumentEnv :=
  ⟨fun n => if n = "instrumentor" then some "0.1.0"
            else if n = "openai" then some "1.5.0" else none, "3.11.4"⟩

/-- Witness for C4: with an active openai provider instrumentor and the
repository's `AGENTIC_LIBRARIES` table, instrumenting `google.adk`
uninstruments the provider, replaces the active set with the adk instance,
and sets the flag; and with the flag set nothing more is ever allowed. -/
theorem c4_agentic_exclusivity_witness :
    (_should_instrument_package sampleProviderTable AGENTIC_LIBRARIES
        ⟨[], true⟩ "openai" = (false, ⟨[], true⟩, []) ∧
      _perform_instrumentation sampleProviderTable AGENTIC_LIBRARIES sampleEnv false
        ⟨[], true⟩ "openai" = ⟨⟨[], true⟩, [], false⟩) ∧
    (_perform_instrumentation sampleProviderTable AGENTIC_LIBRARIES sampleEnv false
        ⟨[⟨"OpenaiInstrumentor", some "openai", false⟩], false⟩
        "google.adk").uninstrumentCalls
      = [⟨"OpenaiInstrumentor", some "openai", false⟩].filter
          (isProviderInstrumentor sampleProviderTable) ∧
    (_perform_instrumentation sampleProviderTable AGENTIC_LIBRARIES sampleEnv false
        ⟨[⟨"OpenaiInstrumentor", some "openai", false⟩], false⟩
        "google.adk").state.activeInstrumentors
      = [⟨"OpenaiInstrumentor", some "openai", false⟩].filter
          (fun i => !(isProviderInstrumentor sampleProviderTable i))
        ++ [⟨"GoogleAdkInstrumentor", some "google.adk", false⟩] ∧
    (_perform_instrumentation sampleProviderTable AGENTIC_LIBRARIES sampleEnv false
        ⟨[⟨"OpenaiInstrumentor", some "openai", false⟩], false⟩
        "google.adk").state.hasAgenticLibrary = true := by
  refine ⟨c4_agentic_exclusivity.1 sampleProviderTable AGENTIC_LIBRARIES sampleEnv
    false ⟨[], true⟩ "openai" rfl, ?_⟩
  exact c4_agentic_exclusivity.2 sampleProviderTable AGENTIC_LIBRARIES sampleEnv false
    ⟨[⟨"OpenaiInstrumentor", some "openai", false⟩], false⟩ "google.adk"
    ⟨"agent.backend.instrumentation.instrumentor", "GoogleAdkInstrumentor", "0.1.0", none⟩
    rfl (by decide) (by decide) (by decide) (by decide)

/-- C10 (implicit): `instrument_one` returns the instance even when its
`instrument()` call raises (the error is only logged), and
`_perform_instrumentation` then still records the package as instrumented
— the instance is appended with its package key, the package subsequently
tests as instrumented — and for an agentic-library target still sets the
agentic flag, after which every future instrumentation attempt for any
package is refused. -/
theorem c10_failed_instrument_still_registered :
    (∀ (loader : InstrumentorLoader) (env : InstrumentEnv),
      loader.should_activate env = true →
      instrument_one loader env true = ⟨some ⟨loader.class_name, none, true⟩, true⟩) ∧
    (∀ (providers agenticLibraries : PolicyTable) (env : InstrumentEnv)
       (s : ManagerState) (packageName : String) (cfg : InstrumentorLoader),
      s.hasAgenticLibrary = false →
      _is_package_instrumented s.activeInstrumentors packageName = false →
      assocLookup packageName providers = none →
      assocLookup packageName agenticLibraries = some cfg →
      cfg.should_activate env = true →
      ((⟨cfg.class_name, some packageName, true⟩ : Instrumentor)
          ∈ (_perform_instrumentation providers agenticLibraries env true s
              packageName).state.activeInstrumentors) ∧
      _is_package_instrumented
          (_perform_instrumentation providers agenticLibraries env true s
            packageName).state.activeInstrumentors packageName = true ∧
      (_perform_instrumentation providers agenticLibraries env true s
          packageName).state.hasAgenticLibrary = true ∧
      (∀ (pkg2 : String) (env2 : InstrumentEnv) (raises2 : Bool),
        _perform_instrumentation providers agenticLibraries env2 raises2
            (_perform_instrumentation providers agenticLibraries env true s
              packageName).state pkg2
          = ⟨(_perform_instrumentation providers agenticLibraries env true s
              packageName).state, [], false⟩)) ∧
    (∀ (providers agenticLibraries : PolicyTable) (env : InstrumentEnv)
       (s : ManagerState) (packageName : String) (cfg : InstrumentorLoader),
      s.hasAgenticLibrary = false →
      _is_package_instrumented s.activeInstrumentors packageName = false →
      assocLookup packageName providers = some cfg →
      assocLookup packageName agenticLibraries = none →
      cfg.should_activate env = true →
      (_perform_instrumentation providers agenticLibraries env true s packageName).state
        = ⟨s.activeInstrumentors ++ [⟨cfg.class_name, some packageName, true⟩],
           false⟩) := by
  refine ⟨?_, ?_, ?_⟩
  · intro loader env h
    unfold instrument_one
    rw [h]
    simp
  · intro providers agenticLibraries env s packageName cfg hA hI hP hAg hAct
    have heq := perform_agentic_eq providers agenticLibraries env true s packageName cfg
      hA hI hP hAg hAct
    rw [heq]
    have hmem : (⟨cfg.class_name, some packageName, true⟩ : Instrumentor)
        ∈ s.activeInstrumentors.filter
            (fun i => !(isProviderInstrumentor providers i))
          ++ [⟨cfg.class_name, some packageName, true⟩] := by
      exact List.mem_append_right _ (List.mem_singleton.mpr rfl)
    refine ⟨hmem, is_package_instrumented_of_mem hmem rfl, rfl, ?_⟩
    intro pkg2 env2 raises2
    exact perform_of_agentic_active providers agenticLibraries env2 raises2 _ pkg2 rfl
  · intro providers agenticLibraries env s packageName cfg hA hI hP hAgNone hAct
    rw [perform_provider_eq providers agenticLibraries env true s packageName cfg
      hA hI hP hAgNone hAct]

/-- A second sample provider table (the shape of the commented-out
`anthropic` entry of `PROVIDERS`). -/
def sampleProviderTable2 : PolicyTable :=
  [("anthropic",
    ⟨"phare.instrumentation.providers.anthropic", "AnthropicInstrumentor", "0.32.0", none⟩)]

/-- A second sample environment: anthropic installed at 1.0.0 and the
adk loader's resolved package "instrumentor" at 0.1.0. -/
def sampleEnv2 : InstrumentEnv :=
  ⟨fun n => if n = "instrumentor" then some "0.1.0"
            else if n = "anthropic" then some "1.0.0" else none, "3.12.1"⟩

/-- Witness for C10: instrumenting `google.adk` from a state with an
active anthropic provider, with the `instrument()` call raising, still
registers the adk instance under its key, makes the package test as
instrumented, sets the agentic flag, and blocks a later attempt on
"anthropic"; instrumenting the provider "anthropic" with a raising
`instrument()` still appends it. -/
theorem c10_failed_instrument_still_registered_witness :
    instrument_one
        ⟨"agent.backend.instrumentation.instrumentor", "GoogleAdkInstrumentor", "0.1.0", none⟩
        sampleEnv2 true
      = ⟨some ⟨"GoogleAdkInstrumentor", none, true⟩, true⟩ ∧
    ((⟨"GoogleAdkInstrumentor", some "google.adk", true⟩ : Instrumentor)
        ∈ (_perform_instrumentation sampleProviderTable2 AGENTIC_LIBRARIES sampleEnv2 true
            ⟨[⟨"AnthropicInstrumentor", some "anthropic", false⟩], false⟩
            "google.adk").state.activeInstrumentors) ∧
    _is_package_instrumented
        (_perform_instrumentation sampleProviderTable2 AGENTIC_LIBRARIES sampleEnv2 true
          ⟨[⟨"AnthropicInstrumentor", some "anthropic", false⟩], false⟩
          "google.adk").state.activeInstrumentors "google.adk" = true ∧
    _perform_instrumentation sampleProviderTable2 AGENTIC_LIBRARIES sampleEnv2 false
        (_perform_instrumentation sampleProviderTable2 AGENTIC_LIBRARIES sampleEnv2 true
          ⟨[⟨"AnthropicInstrumentor", some "anthropic", false⟩], false⟩
          "google.adk").state "anthropic"
      = ⟨(_perform_instrumentation sampleProviderTable2 AGENTIC_LIBRARIES sampleEnv2 true
          ⟨[⟨"AnthropicInstrumentor", some "anthropic", false⟩], false⟩
          "google.adk").state, [], false⟩ ∧
    (_perform_instrumentation sampleProviderTable2 AGENTIC_LIBRARIES sampleEnv2 true
        ⟨[], false⟩ "anthropic").state
      = ⟨[⟨"AnthropicInstrumentor", some "anthropic", true⟩], false⟩ := by
  have h2 := c10_failed_instrument_still_registered.2.1 sampleProviderTable2
    AGENTIC_LIBRARIES sampleEnv2
    ⟨[⟨"AnthropicInstrumentor", some "anthropic", false⟩], false⟩ "google.adk"
    ⟨"agent.backend.instrumentation.instrumentor", "GoogleAdkInstrumentor", "0.1.0", none⟩
    rfl (by decide) (by decide) (by decide) (by decide)
  refine ⟨?_, h2.1, h2.2.1, h2.2.2.2 "anthropic" sampleEnv2 false, ?_⟩
  · exact c10_failed_instrument_still_registered.1
      ⟨"agent.backend.instrumentation.instrumentor", "GoogleAdkInstrumentor", "0.1.0", none⟩
      sampleEnv2 (by decide)
  · have h3 := c10_failed_instrument_still_registered.2.2 sampleProviderTable2
      AGENTIC_LIBRARIES sampleEnv2 ⟨[], false⟩ "anthropic"
      ⟨"phare.instrumentation.providers.anthropic", "AnthropicInstrumentor", "0.32.0", none⟩
      rfl (by decide) (by decide) (by decide) (by decide)
    rw [h3]
    rfl

/-! ## Tracing core: spans, contexts, `make_span`

`TracingCore.make_span` names the span `"<operation_name>.<kind>"` and
creates it with `tracer.start_span`.  The tracer comes from the standard
OpenTelemetry SDK `TracerProvider` installed by `setup_telemetry`, whose
`start_span(name, context=None, ...)` resolves the parent span from the
*given* context, falling back to the ambient current context when `context`
is `None` (`get_current_span(context)` over `context_api.get_current()`).
Span identity is a pair of numeric ids; fresh ids (the SDK's random id
generator) are explicit parameters.  OTel SDK spans refuse mutation after
`end()`: `set_attribute` and `end` on an ended span only log and return,
which the span operations below reproduce. -/

/-- Span-kind strings (`PhareSpanKindValues` / legacy `SpanKind`). -/
def SpanKind.SESSION : String := "session"

def SpanKind.AGENT : String := "agent"

def SpanKind.TOOL : String := "tool"

def SpanKind.LLM : String := "llm"

/-- An OpenTelemetry SDK span as the tracing core observes it. -/
structure OtelSpan where
  traceId : ℕ
  spanId : ℕ
  parentSpanId : Option ℕ
  name : String
  attributes : List (String × String)
  ended : Bool
  deriving DecidableEq, Repr

/-- An OpenTelemetry context: the (trace id, span id) of the span it
carries, if any. -/
structure OtelContext where
  currentSpan : Option (ℕ × ℕ)
  deriving DecidableEq, Repr

/-- OTel SDK `Tracer.start_span(name, context, attributes=...)`: the
parent is the current span of the given context, where a missing context
argument (`None`) falls back to the ambient current context; with a parent
the new span joins the parent's trace, without one it starts a new trace
with a fresh trace id. -/
def tracerStartSpan (ambient : OtelContext) (spanName : String)
    (ctx : Option OtelContext) (attributes : List (String × String))
    (freshTraceId freshSpanId : ℕ) : OtelSpan :=
  match (ctx.getD ambient).currentSpan with
  | some parentRef =>
      ⟨parentRef.1, freshSpanId, some parentRef.2, spanName, attributes, false⟩
  | none => ⟨freshTraceId, freshSpanId, none, spanName, attributes, false⟩

/-- `get_span_attributes(operation_name, span_kind, version=None, **kwargs)`
for the `version=None` case used by `start_trace`. -/
def get_span_attributes (operationName spanKind : String)
    (extra : List (String × String)) : List (String × String) :=
  [("phare.span.kind", spanKind), ("operation.name", operationName)] ++ extra

/-- `TracingCore.make_span`: names the span
`"<operation_name>.<span_kind>"`; for `SpanKind.SESSION` it calls
`tracer.start_span` with no context argument (the branch commented
"create as a root span"), for every other kind it passes the captured
current context; then it attaches the new span's context and returns
(span, context, token), the token being the context displaced by
`attach`. -/
def make_span (ambient : OtelContext) (operationName spanKind : String)
    (attributes : List (String × String)) (freshTraceId freshSpanId : ℕ) :
    OtelSpan × OtelContext × OtelContext :=
  let spanName := operationName ++ "." ++ spanKind
  let attrs := get_span_attributes operationName spanKind attributes
  let currentContext := ambient
  let span :=
    if spanKind = SpanKind.SESSION then
      tracerStartSpan ambient spanName none attrs freshTraceId freshSpanId
    else
      tracerStartSpan ambient spanName (some currentContext) attrs freshTraceId freshSpanId
  let ctx : OtelContext := ⟨some (span.traceId, span.spanId)⟩
  (span, ctx, ambient)

/-- C5 (evaluated at the failing input): with an ambient context carrying
an active span (trace 7, span 1), `make_span` with kind SESSION produces a
span in trace 7 with parent span 1 — not the root of the new trace 42 the
id generator would supply — because `tracer.start_span` called without a
context argument resolves its parent from the ambient current context.
Non-session kinds attach to the current context as claimed, and a session
span is a new root only when no ambient span is active. -/
theorem c5_session_span_attaches_to_ambient :
    ((make_span ⟨some (7, 1)⟩ "session" SpanKind.SESSION [] 42 2).1.traceId = 7 ∧
     (make_span ⟨some (7, 1)⟩ "session" SpanKind.SESSION [] 42 2).1.parentSpanId
        = some 1 ∧
     (make_span ⟨some (7, 1)⟩ "session" SpanKind.SESSION [] 42 2).1.traceId ≠ 42) ∧
    (make_span ⟨some (7, 1)⟩ "plan_step" SpanKind.AGENT [] 42 3).1.parentSpanId
        = some 1 ∧
    (make_span ⟨none⟩ "session" SpanKind.SESSION [] 42 2).1.traceId = 42 ∧
    (make_span ⟨none⟩ "session" SpanKind.SESSION [] 42 2).1.parentSpanId = none := by
  decide

/-! ## Tracing core: active-trace registry

`TracingCore` keeps `_active_traces : dict[str, TraceContext]` under
`_traces_lock`; keys are the root span's trace id (`f"{trace_id:x}"`,
injective in the id, modelled by the numeric id itself).  Spans are shared
mutable objects, modelled by a heap keyed by the root span's trace id.
`start_trace` goes through `make_span`, which reads the ambient current
context (`context_api.get_current()`) — an explicit parameter here — and
attaches the new span's context; `start_trace` returns the attached
context so consecutive calls in one execution context chain through it.
The SDK's random id generator is the fresh-id counter `nextFreshId`; note
that per `tracerStartSpan` a span created under an ambient parent inherits
the parent's trace id and the fresh id goes unused.  The host/resource
attribute snapshot taken for the `"session"` trace name is
environment-dependent and passed in as a parameter. -/

/-- `TraceContext`: holds the root span (by its trace id into the span
heap; the attachment token is recovered from the span) and the
`is_init_trace` flag. -/
structure TraceContext where
  traceId : ℕ
  is_init_trace : Bool := false
  deriving DecidableEq, Repr

/-- The tracing core's state: `_initialized`, `_active_traces`, the heap
of root spans created so far, and the fresh-id source. -/
structure CoreState where
  _initialized : Bool
  _active_traces : List (ℕ × TraceContext)
  spans : List (ℕ × OtelSpan)
  nextFreshId : ℕ
  deriving DecidableEq, Repr

/-- Python dict assignment `m[k] = v`: overwrite in place, else append. -/
def dictInsert {β : Type} (k : ℕ) (v : β) (m : List (ℕ × β)) : List (ℕ × β) :=
  if (assocLookup k m).isSome then m.map (fun p => if p.1 = k then (k, v) else p)
  else m ++ [(k, v)]

/-- `get_trace_attributes(tags)` for dict-shaped tags. -/
def get_trace_attributes (tags : List (String × String)) : List (String × String) :=
  tags

/-- `TracingCore.start_trace(trace_name, tags)`: returns None if not
initialized; otherwise builds the attributes (adding the system resource
snapshot for the `"session"` name) and creates the span through
`make_span` with kind SESSION, which reads the ambient current context
and attaches the new span's context.  The `TraceContext` is registered in
`_active_traces` keyed by the span's trace id — a plain dict assignment,
overwriting any entry already stored under that id.  Besides the context
object and the new core state, the ambient context after the `attach` is
returned, so consecutive calls in one execution context chain through
it. -/
def start_trace (s : CoreState) (ambient : OtelContext) (traceName : String)
    (tags sysAttrs : List (String × String)) :
    Option TraceContext × CoreState × OtelContext :=
  if s._initialized = false then (none, s, ambient)
  else
    let attributes := get_trace_attributes tags
      ++ (if traceName = "session" then sysAttrs else [])
    let r := make_span ambient traceName SpanKind.SESSION attributes
      s.nextFreshId s.nextFreshId
    let traceContext : TraceContext := ⟨r.1.traceId, false⟩
    (some traceContext,
     { s with
        spans := dictInsert r.1.traceId r.1 s.spans,
        _active_traces := dictInsert r.1.traceId traceContext s._active_traces,
        nextFreshId := s.nextFreshId + 1 },
     r.2.1)

/-- OTel SDK `Span.set_attribute`: no-op (logged) on an ended span. -/
def setSpanAttribute (sp : OtelSpan) (key value : String) : OtelSpan :=
  if sp.ended then sp else { sp with attributes := sp.attributes ++ [(key, value)] }

/-- OTel SDK `Span.end` (via `finalize_span`): no-op (logged) on an ended
span. -/
def endSpan (sp : OtelSpan) : OtelSpan :=
  if sp.ended then sp else { sp with ended := true }

/-- `get_session_end_attributes(end_state)`. -/
def get_session_end_attributes (endState : String) : List (String × String) :=
  [("phare.session.end_state", endState)]

/-- The mutation `_end_single_trace` applies to the root span: set the
session-end attributes, then end it through `finalize_span` (which also
detaches the token and flushes, neither of which touches span or
registry; all errors are swallowed there). -/
def updateSpanEnd (endState : String) (sp : OtelSpan) : OtelSpan :=
  endSpan ((get_session_end_attributes endState).foldl
    (fun acc kv => setSpanAttribute acc kv.1 kv.2) sp)

/-- `TracingCore._end_single_trace`: mutates the context's span as above,
then removes the trace id from `_active_traces` under the lock — only if
it is still present.  The whole body is wrapped in try/except in the
source, so it never raises. -/
def _end_single_trace (s : CoreState) (traceContext : TraceContext)
    (endState : String) : CoreState :=
  let spans' := s.spans.map fun p =>
    if p.1 = traceContext.traceId then (p.1, updateSpanEnd endState p.2) else p
  let active' :=
    if (assocLookup traceContext.traceId s._active_traces).isSome then
      s._active_traces.filter fun p => p.1 ≠ traceContext.traceId
    else s._active_traces
  { s with spans := spans', _active_traces := active' }

/-- `TracingCore.end_trace(trace_context, end_state)`: no-op when not
initialized; with `None` it ends every trace in a snapshot of the
registry; otherwise it ends the one given trace. -/
def end_trace (s : CoreState) (traceContext : Option TraceContext)
    (endState : String) : CoreState :=
  if s._initialized = false then s
  else
    match traceContext with
    | none => s._active_traces.foldl (fun acc p => _end_single_trace acc p.2 endState) s
    | some tc => _end_single_trace s tc endState

/-- `get_active_traces()`: a snapshot copy of the registry. -/
def get_active_traces (s : CoreState) : List (ℕ × TraceContext) := s._active_traces

/-- `get_active_trace_count()`. -/
def get_active_trace_count (s : CoreState) : ℕ := s._active_traces.length

/-- The freshly-initialized core: empty registry. -/
def initState : CoreState := ⟨true, [], [], 0⟩

theorem assocLookup_none_forall {α β : Type} [DecidableEq α] {k : α}
    {l : List (α × β)} (h : assocLookup k l = none) : ∀ p ∈ l, p.1 ≠ k := by
  induction l with
  | nil => intro p hp; cases hp
  | cons q rest ih =>
      obtain ⟨k', v⟩ := q
      unfold assocLookup at h
      by_cases hq : k' = k
      · rw [if_pos hq] at h; cases h
      · rw [if_neg hq] at h
        intro p hp
        rcases List.mem_cons.mp hp with hpq | hpr
        · rw [hpq]; exact hq
        · exact ih h p hpr

theorem assocLookup_none_of_forall_ne {α β : Type} [DecidableEq α] {k : α}
    {l : List (α × β)} (h : ∀ p ∈ l, p.1 ≠ k) : assocLookup k l = none := by
  induction l with
  | nil => rfl
  | cons q rest ih =>
      obtain ⟨k', v⟩ := q
      unfold assocLookup
      rw [if_neg (h (k', v) (List.mem_cons_self _ _))]
      exact ih fun p hp => h p (List.mem_cons_of_mem _ hp)

theorem assocLookup_cons {α β : Type} [DecidableEq α] (k k' : α) (v : β)
    (l : List (α × β)) :
    assocLookup k ((k', v) :: l) = if k' = k then some v else assocLookup k l := rfl

theorem assocLookup_filter_ne {α β : Type} [DecidableEq α] (k k0 : α)
    (l : List (α × β)) (h : k ≠ k0) :
    assocLookup k (l.filter fun p => p.1 ≠ k0) = assocLookup k l := by
  induction l with
  | nil => rfl
  | cons q rest ih =>
      obtain ⟨k', v⟩ := q
      by_cases hq : k' = k0
      · have hd : (decide ((k', v).1 ≠ k0)) = false := by simp [hq]
        rw [List.filter_cons, hd]
        rw [if_neg (by decide : ¬ ((false : Bool) = true))]
        rw [ih, assocLookup_cons]
        rw [if_neg (by rw [hq]; exact fun he => h he.symm)]
      · have hd : (decide ((k', v).1 ≠ k0)) = true := by simp [hq]
        rw [List.filter_cons, hd]
        rw [if_pos (rfl : (true : Bool) = true)]
        rw [assocLookup_cons, assocLookup_cons]
        by_cases hk : k' = k
        · rw [if_pos hk, if_pos hk]
        · rw [if_neg hk, if_neg hk]
          exact ih

theorem assocLookup_filter_self {α β : Type} [DecidableEq α] (k0 : α)
    (l : List (α × β)) :
    assocLookup k0 (l.filter fun p => p.1 ≠ k0) = none := by
  apply assocLookup_none_of_forall_ne
  intro p hp
  exact of_decide_eq_true (List.mem_filter.mp hp).2

theorem assocLookup_append_ne {α β : Type} [DecidableEq α] (k k0 : α) (v : β)
    (l : List (α × β)) (h : k ≠ k0) :
    assocLookup k (l ++ [(k0, v)]) = assocLookup k l := by
  induction l with
  | nil =>
      show assocLookup k [(k0, v)] = none
      unfold assocLookup
      rw [if_neg fun he => h he.symm]
      rfl
  | cons q rest ih =>
      obtain ⟨k', w⟩ := q
      show assocLookup k ((k', w) :: (rest ++ [(k0, v)])) = _
      unfold assocLookup
      by_cases hk : k' = k
      · rw [if_pos hk, if_pos hk]
      · rw [if_neg hk, if_neg hk]
        exact ih

theorem assocLookup_append_self {α β : Type} [DecidableEq α] (k : α) (v : β)
    (l : List (α × β)) (h : assocLookup k l = none) :
    assocLookup k (l ++ [(k, v)]) = some v := by
  induction l with
  | nil =>
      show assocLookup k [(k, v)] = some v
      unfold assocLookup
      rw [if_pos rfl]
  | cons q rest ih =>
      obtain ⟨k', w⟩ := q
      unfold assocLookup at h
      show assocLookup k ((k', w) :: (rest ++ [(k, v)])) = some v
      unfold assocLookup
      by_cases hk : k' = k
      · rw [if_pos hk] at h; cases h
      · rw [if_neg hk] at h
        rw [if_neg hk]
        exact ih h

theorem map_eq_self_of_mem {α : Type} {l : List α} {f : α → α}
    (h : ∀ x ∈ l, f x = x) : l.map f = l := by
  induction l with
  | nil => rfl
  | cons x rest ih =>
      rw [List.map_cons, h x (List.mem_cons_self _ _),
        ih fun y hy => h y (List.mem_cons_of_mem _ hy)]

theorem dictInsert_not_present {β : Type} (k : ℕ) (v : β) (m : List (ℕ × β))
    (h : assocLookup k m = none) : dictInsert k v m = m ++ [(k, v)] := by
  unfold dictInsert
  rw [h]
  rfl

/-- Ended spans are fixed points of the end-mutation; its result is always
ended. -/
theorem updateSpanEnd_of_ended (endState : String) (sp : OtelSpan)
    (h : sp.ended = true) : updateSpanEnd endState sp = sp := by
  unfold updateSpanEnd get_session_end_attributes
  simp only [List.foldl_cons, List.foldl_nil]
  unfold setSpanAttribute
  rw [if_pos h]
  unfold endSpan
  rw [if_pos h]

theorem updateSpanEnd_ended (endState : String) (sp : OtelSpan) :
    (updateSpanEnd endState sp).ended = true := by
  unfold updateSpanEnd endSpan
  split
  · assumption
  · rfl

theorem end_trace_some (s : CoreState) (tc : TraceContext) (endState : String)
    (hinit : s._initialized = true) :
    end_trace s (some tc) endState = _end_single_trace s tc endState := by
  unfold end_trace
  rw [hinit, if_neg (by decide : ¬ ((true : Bool) = false))]

theorem end_single_active (s : CoreState) (tc : TraceContext) (endState : String) :
    (_end_single_trace s tc endState)._active_traces
      = if (assocLookup tc.traceId s._active_traces).isSome then
          s._active_traces.filter fun p => p.1 ≠ tc.traceId
        else s._active_traces := rfl

theorem end_trace_lookup_ne (s : CoreState) (tc : TraceContext) (endState : String)
    (k : ℕ) (hk : k ≠ tc.traceId) :
    assocLookup k (end_trace s (some tc) endState)._active_traces
      = assocLookup k s._active_traces := by
  unfold end_trace
  by_cases hinit : s._initialized = false
  · rw [if_pos hinit]
  · rw [if_neg hinit]
    show assocLookup k (_end_single_trace s tc endState)._active_traces = _
    rw [end_single_active]
    split
    · exact assocLookup_filter_ne k tc.traceId _ hk
    · rfl

theorem end_trace_lookup_self (s : CoreState) (tc : TraceContext) (endState : String)
    (hinit : s._initialized = true) :
    assocLookup tc.traceId (end_trace s (some tc) endState)._active_traces = none := by
  rw [end_trace_some s tc endState hinit, end_single_active]
  split
  · exact assocLookup_filter_self _ _
  · rename_i hn
    exact Option.not_isSome_iff_eq_none.mp hn

theorem end_trace_active_mem (s : CoreState) (tc : TraceContext) (endState : String)
    {p : ℕ × TraceContext} (hinit : s._initialized = true)
    (hp : p ∈ (end_trace s (some tc) endState)._active_traces) :
    p ∈ s._active_traces ∧ p.1 ≠ tc.traceId := by
  rw [end_trace_some s tc endState hinit, end_single_active] at hp
  by_cases hfound : (assocLookup tc.traceId s._active_traces).isSome = true
  · rw [if_pos hfound] at hp
    exact ⟨List.mem_of_mem_filter hp, of_decide_eq_true (List.mem_filter.mp hp).2⟩
  · rw [if_neg hfound] at hp
    refine ⟨hp, ?_⟩
    exact assocLookup_none_forall (Option.not_isSome_iff_eq_none.mp hfound) p hp

/-- The plainly-reachable call sequence the registry claim must survive:
two consecutive `start_trace` calls in one execution context (ambient
context empty at the outset, then threaded through the `attach` each call
performs), followed by `end_trace` on the second returned context. -/
def firstStart : Option TraceContext × CoreState × OtelContext :=
  start_trace initState ⟨none⟩ "session" [] []

def secondStart : Option TraceContext × CoreState × OtelContext :=
  start_trace firstStart.2.1 firstStart.2.2 "session" [] []

/-- C1 (evaluated at the failing input; the claim fails on the code):
from a fresh core, in one execution context, the first `start_trace`
registers trace 0 (count 1); the second `start_trace` runs with the first
session span still attached as the ambient context, so — per the C5 slip,
`tracer.start_span` with no context argument parenting the span to the
ambient span — its span inherits trace id 0, the returned context carries
the same trace id, and its registry assignment overwrites the first entry
instead of inserting a new one (count still 1, not 2); ending the second
context then empties the registry, so the first trace, which was never
ended, is no longer in `get_active_traces()`.  This contradicts the
claim's "each successful start_trace inserts exactly one registry entry"
and "every other active trace remains". -/
theorem c1_second_start_overwrites_registry_entry :
    firstStart.1 = some ⟨0, false⟩ ∧
    get_active_trace_count firstStart.2.1 = 1 ∧
    secondStart.1 = some ⟨0, false⟩ ∧
    get_active_trace_count secondStart.2.1 = 1 ∧
    get_active_traces
      (end_trace secondStart.2.1 (some ⟨0, false⟩) "Success") = [] := by
  decide

/-- Ending a trace whose registry entry is already gone and whose root
span is already ended changes nothing: the registry branch is guarded by
membership, and the span mutations hit the OTel ended-span guards. -/
theorem end_single_noop (s : CoreState) (tc : TraceContext) (endState : String)
    (h1 : assocLookup tc.traceId s._active_traces = none)
    (h2 : ∀ p ∈ s.spans, p.1 = tc.traceId → p.2.ended = true) :
    _end_single_trace s tc endState = s := by
  obtain ⟨init, act, sp, nid⟩ := s
  unfold _end_single_trace
  dsimp only at h1 h2 ⊢
  rw [h1]
  rw [if_neg (by decide : ¬ ((Option.isSome (none : Option TraceContext)) = true))]
  have hspans : (sp.map fun p =>
      if p.1 = tc.traceId then (p.1, updateSpanEnd endState p.2) else p) = sp := by
    apply map_eq_self_of_mem
    intro p hp
    by_cases hk : p.1 = tc.traceId
    · rw [if_pos hk, updateSpanEnd_of_ended endState p.2 (h2 p hp hk)]
    · rw [if_neg hk]
  rw [hspans]

/-- C6: on a trace context whose entry has already been removed from the
registry (and whose root span is therefore already ended), `end_trace` is
a no-op deciding by registry membership — it changes neither the registry
nor the span heap — and, being a total function whose source body is
wrapped in try/except, it never raises; in particular ending the same
trace twice equals ending it once, for every state. -/
theorem c6_end_trace_idempotent :
    (∀ (s : CoreState) (tc : TraceContext) (endState : String),
      assocLookup tc.traceId s._active_traces = none →
      (∀ p ∈ s.spans, p.1 = tc.traceId → p.2.ended = true) →
      end_trace s (some tc) endState = s) ∧
    (∀ (s : CoreState) (tc : TraceContext) (endState1 endState2 : String),
      end_trace (end_trace s (some tc) endState1) (some tc) endState2
        = end_trace s (some tc) endState1) := by
  constructor
  · intro s tc endState h1 h2
    by_cases hinit : s._initialized = false
    · unfold end_trace
      rw [if_pos hinit]
    · have hinit' : s._initialized = true := by
        revert hinit
        cases s._initialized <;> simp
      rw [end_trace_some s tc endState hinit']
      exact end_single_noop s tc endState h1 h2
  · intro s tc endState1 endState2
    by_cases hinit : s._initialized = false
    · have hinner : end_trace s (some tc) endState1 = s := by
        unfold end_trace
        rw [if_pos hinit]
      rw [hinner]
      unfold end_trace
      rw [if_pos hinit]
    · have hinit' : s._initialized = true := by
        revert hinit
        cases s._initialized <;> simp
      rw [end_trace_some s tc endState1 hinit']
      have hinit2 : (_end_single_trace s tc endState1)._initialized = true := hinit'
      rw [end_trace_some _ tc endState2 hinit2]
      apply end_single_noop
      · rw [end_single_active]
        split
        · exact assocLookup_filter_self _ _
        · rename_i hn
          exact Option.not_isSome_iff_eq_none.mp hn
      · intro p hp hk
        have hsp : (_end_single_trace s tc endState1).spans
            = s.spans.map
                (fun q => if q.1 = tc.traceId then (q.1, updateSpanEnd endState1 q.2)
                  else q) := rfl
        rw [hsp] at hp
        obtain ⟨q, hq, hpq⟩ := List.mem_map.mp hp
        by_cases hqk : q.1 = tc.traceId
        · rw [if_pos hqk] at hpq
          rw [← hpq]
          exact updateSpanEnd_ended endState1 q.2
        · rw [if_neg hqk] at hpq
          rw [← hpq] at hk
          exact absurd hk hqk

/-- Witness for C6: a core holding one already-ended root span for trace 5
with an empty registry; ending trace 5 again returns the state unchanged. -/
theorem c6_end_trace_idempotent_witness :
    end_trace ⟨true, [], [(5, ⟨5, 5, none, "session.session",
        [("phare.session.end_state", "Success")], true⟩)], 6⟩
      (some ⟨5, false⟩) "Success"
      = ⟨true, [], [(5, ⟨5, 5, none, "session.session",
          [("phare.session.end_state", "Success")], true⟩)], 6⟩ := by
  exact c6_end_trace_idempotent.1 _ ⟨5, false⟩ "Success" (by decide) (by decide)
